import Mathlib

/-
  A verification development for a small retirement-planning engine.

  The engine has two implementations of a closed-form future-value
  helper (one in the main calculator component, one in the growth
  projection component), a detailed year-by-year simulation
  (simulateYearly, in the main calculator) and a chart-oriented yearly
  projection generator (generateProjections, in the growth projection
  component).  Real-number arithmetic is modelled over ℚ; ages and year
  counts are integers, matching every call site in the source (every
  exponent that occurs is an integer exponent).
-/

namespace Retirement

/-- Closed-form future value as implemented in the main calculator
component (`calculateFutureValue` in RetirementCalculator.tsx).
For `years ≤ 0` it returns the principal plus twelve monthly
contributions. -/
def calculateFutureValueRC (principalAmount monthlyContribution annualRate : ℚ)
    (years : ℤ) : ℚ :=
  if years ≤ 0 then principalAmount + monthlyContribution * 12
  else
    let monthlyRate := annualRate / 12
    let months := years * 12
    let futureValuePrincipal := principalAmount * (1 + annualRate) ^ years.toNat
    let futureValueAnnuity :=
      if 0 < monthlyRate then
        monthlyContribution * ((1 + monthlyRate) ^ months.toNat - 1) / monthlyRate
      else
        monthlyContribution * (months : ℚ)
    futureValuePrincipal + futureValueAnnuity

/-- Closed-form future value as implemented in the growth projection
component (`calculateFutureValue` in GrowthProjection).  For
`years ≤ 0` it returns the principal alone; otherwise it is the same
formula as the main calculator variant. -/
def calculateFutureValueGP (principalAmount monthlyContribution annualRate : ℚ)
    (years : ℤ) : ℚ :=
  if years ≤ 0 then principalAmount
  else
    let monthlyRate := annualRate / 12
    let months := years * 12
    let futureValuePrincipal := principalAmount * (1 + annualRate) ^ years.toNat
    let futureValueAnnuity :=
      if 0 < monthlyRate then
        monthlyContribution * ((1 + monthlyRate) ^ months.toNat - 1) / monthlyRate
      else
        monthlyContribution * (months : ℚ)
    futureValuePrincipal + futureValueAnnuity

/-- One row of the detailed yearly projection table produced by
`simulateYearly` in RetirementCalculator.tsx. -/
structure ProjRow where
  year : ℕ
  age : ℤ
  returnPct : ℚ
  salaryBasis : ℚ
  annualContribution : ℚ
  employerMatch : ℚ
  retirementIncome : ℚ
  payout : ℚ
  interestEarned : ℚ
  balance : ℚ
  deriving DecidableEq

/-- Placeholder row used as the default for total list indexing. -/
def dRow : ProjRow := ⟨0, 0, 0, 0, 0, 0, 0, 0, 0, 0⟩

/-- The inputs of the detailed yearly simulation: the two bucket
principals and monthly-contribution totals aggregated by the caller,
the two growth rates already divided by 100 (as the component computes
`savingsGrowthRate` and `investmentGrowthRate`), the two ages, and the
withdrawal rate in percent. -/
structure SimParams where
  totalSavings : ℚ
  totalInvestments : ℚ
  monthlySavings : ℚ
  monthlyInvestments : ℚ
  savingsGrowthRate : ℚ
  investmentGrowthRate : ℚ
  currentAge : ℤ
  retirementAge : ℤ
  withdrawalRate : ℚ

/-- `annualContribSavings` in `simulateYearly`. -/
def annualContribSavings (P : SimParams) : ℚ := P.monthlySavings * 12

/-- `annualContribInvestment` in `simulateYearly` (the source sums the
three growth-bucket monthly contributions first; `monthlyInvestments`
is that sum). -/
def annualContribInvestment (P : SimParams) : ℚ := P.monthlyInvestments * 12

/-- `yearsToRetirement = retirementAge - currentAge`. -/
def yearsToRetirement (P : SimParams) : ℤ := P.retirementAge - P.currentAge

/-- `projectedInvestmentValue` in RetirementCalculator.tsx: the
closed-form value of the growth bucket at the retirement horizon. -/
def projectedInvestmentValue (P : SimParams) : ℚ :=
  calculateFutureValueRC P.totalInvestments P.monthlyInvestments
    P.investmentGrowthRate (yearsToRetirement P)

/-- `projectedSavings` in RetirementCalculator.tsx: the closed-form
value of the conservative bucket at the retirement horizon. -/
def projectedSavingsValue (P : SimParams) : ℚ :=
  calculateFutureValueRC P.totalSavings P.monthlySavings
    P.savingsGrowthRate (yearsToRetirement P)

/-- `projectedTotal` in RetirementCalculator.tsx. -/
def projectedTotal (P : SimParams) : ℚ :=
  projectedInvestmentValue P + projectedSavingsValue P

/-- `annualWithdrawal` in `simulateYearly`: sized once from the
closed-form projected total at the horizon. -/
def annualWithdrawal (P : SimParams) : ℚ :=
  projectedTotal P * (P.withdrawalRate / 100)

/-- The body of the `simulateYearly` loop for year offset `y`, given
the two running balances `b = (bs, bi)` carried from the previous
iteration.  Returns the row pushed for this year and the updated pair
of balances. -/
def simYear (P : SimParams) (y : ℕ) (b : ℚ × ℚ) : ProjRow × ℚ × ℚ :=
  let age := P.currentAge + (y : ℤ)
  let startTotal := b.1 + b.2
  let blendedRate :=
    if 0 < startTotal then
      b.1 / startTotal * P.savingsGrowthRate + b.2 / startTotal * P.investmentGrowthRate
    else
      (P.investmentGrowthRate + P.savingsGrowthRate) / 2
  if (y : ℤ) ≤ yearsToRetirement P then
    let bs := b.1 + annualContribSavings P
    let bi := b.2 + annualContribInvestment P
    let bsAfter := bs * (1 + P.savingsGrowthRate)
    let biAfter := bi * (1 + P.investmentGrowthRate)
    let interestEarned := (bsAfter - bs) + (biAfter - bi)
    let contributions := annualContribSavings P + annualContribInvestment P
    (⟨y, age, blendedRate * 100, startTotal, contributions, 0, 0, 0,
      interestEarned, bsAfter + biAfter⟩, bsAfter, biAfter)
  else
    let startTotalBefore := b.1 + b.2
    let withdrawal := min startTotalBefore (annualWithdrawal P)
    let totalAfterWithdrawal := max 0 (startTotalBefore - withdrawal)
    let savingsRatio := if 0 < startTotalBefore then b.1 / startTotalBefore else 1 / 2
    let bsPreGrow := totalAfterWithdrawal * savingsRatio
    let biPreGrow := totalAfterWithdrawal * (1 - savingsRatio)
    let bsAfter := bsPreGrow * (1 + P.savingsGrowthRate)
    let biAfter := biPreGrow * (1 + P.investmentGrowthRate)
    let interestEarned := (bsAfter - bsPreGrow) + (biAfter - biPreGrow)
    (⟨y, age, blendedRate * 100, startTotal, 0, 0, annualWithdrawal P, withdrawal,
      interestEarned, bsAfter + biAfter⟩, bsAfter, biAfter)

/-- The running balances `(bs, bi)` of `simulateYearly` at the start of
iteration `y` (so `simBal P 0` is the pair of starting principals). -/
def simBal (P : SimParams) : ℕ → ℚ × ℚ
  | 0 => (P.totalSavings, P.totalInvestments)
  | y + 1 => (simYear P y (simBal P y)).2

/-- The row pushed by `simulateYearly` for year offset `y`. -/
def simRow (P : SimParams) (y : ℕ) : ProjRow :=
  (simYear P y (simBal P y)).1

/-- `simulateYearly` in RetirementCalculator.tsx: rows for year offsets
`0` through `totalYears = 100 - currentAge` inclusive (the end age is
the constant 100 in the source). -/
def simulateYearly (P : SimParams) : List ProjRow :=
  (List.range (100 - P.currentAge + 1).toNat).map (simRow P)

/-- One row of the series produced by `generateProjections` in the
growth projection component.  The source rounds every stored figure
with `Math.round`, so the stored values are integers. -/
structure GrowthRow where
  year : ℕ
  age : ℤ
  savings : ℤ
  investments : ℤ
  total : ℤ
  deriving DecidableEq

/-- Placeholder growth row used as the default for total list
indexing (in the source, a year-0 decumulation row would read an
undefined previous row; no claim exercises that path). -/
def dGrowthRow : GrowthRow := ⟨0, 0, 0, 0, 0⟩

/-- The props consumed by the growth projection component. -/
structure GrowthParams where
  currentSavings : ℚ
  currentInvestments : ℚ
  monthlyContributionsSavings : ℚ
  monthlyContributionsInvestment : ℚ
  retirementAge : ℤ
  currentAge : ℤ
  investmentRate : ℚ
  savingsRate : ℚ
  withdrawalRate : ℚ
  projectedAtRetirement : ℚ
  viewAge : ℤ

/-- The body of the `generateProjections` loop for year offset `year`,
given the previously pushed row (used only in the post-retirement
branch).  `Math.round` is modelled by `round` on ℚ (round half up);
the JavaScript expression `prev.savings / prev.total || 0.5` falls
back to one half exactly when the quotient is zero or undefined, which
over ℚ is the test `quotient = 0`. -/
def genRow (G : GrowthParams) (year : ℕ) (prev : GrowthRow) : GrowthRow :=
  let age := G.currentAge + (year : ℤ)
  if (year : ℤ) ≤ G.retirementAge - G.currentAge then
    let projSav := calculateFutureValueGP G.currentSavings
      G.monthlyContributionsSavings (G.savingsRate / 100) (year : ℤ)
    let projInv := calculateFutureValueGP G.currentInvestments
      G.monthlyContributionsInvestment (G.investmentRate / 100) (year : ℤ)
    ⟨year, age, round projSav, round projInv, round (projSav + projInv)⟩
  else
    let annualWithdrawalG := G.projectedAtRetirement * (G.withdrawalRate / 100)
    let balance1 := (prev.total : ℚ) - annualWithdrawalG
    let balance2 := max 0 balance1
    let blendedRate := ((prev.savings : ℚ) / (prev.total : ℚ)) * (G.savingsRate / 100) +
      ((prev.investments : ℚ) / (prev.total : ℚ)) * (G.investmentRate / 100)
    let balance3 := balance2 * (1 + blendedRate)
    let ratio0 := (prev.savings : ℚ) / (prev.total : ℚ)
    let savingsRatio := if ratio0 = 0 then 1 / 2 else ratio0
    ⟨year, age, round (balance3 * savingsRatio), round (balance3 * (1 - savingsRatio)),
      round balance3⟩

/-- The rows pushed by `generateProjections` for year offsets `0`
through `n`, in order. -/
def genRows (G : GrowthParams) : ℕ → List GrowthRow
  | 0 => [genRow G 0 dGrowthRow]
  | n + 1 => genRows G n ++ [genRow G (n + 1) ((genRows G n).getLastD dGrowthRow)]

/-- `generateProjections` in the growth projection component: its loop
runs `year` from `0` to `maxAge = max viewAge retirementAge + 1`
inclusive (note the bound is an age, not an age difference). -/
def generateProjections (G : GrowthParams) : List GrowthRow :=
  let maxAge := max G.viewAge G.retirementAge + 1
  if maxAge < 0 then [] else genRows G maxAge.toNat

/-! ### Concrete inputs used by witnesses and counterexamples -/

/-- All-zero inputs with current age 100 (a single-row simulation). -/
def Pzero : SimParams := ⟨0, 0, 0, 0, 0, 0, 100, 100, 0⟩

/-- Retirement age equal to current age, non-zero principal and a
positive withdrawal rate. -/
def PhorizonEq : SimParams := ⟨10000, 0, 100, 0, 1/50, 1/20, 65, 65, 4⟩

/-- The inputs of concrete scenario A of the specification. -/
def PscenarioA : SimParams := ⟨10000, 0, 100, 0, 2/100, 5/100, 30, 31, 0⟩

/-- A short simulation whose year-1 row is a decumulation row. -/
def Pdecum : SimParams := ⟨100, 0, 0, 0, 1/50, 1/20, 99, 99, 4⟩

/-- A short simulation whose year-1 decumulation row has its
withdrawal clamped by the balance. -/
def Pclamp : SimParams := ⟨1, 0, 0, 0, 0, 0, 98, 98, 400⟩

/-- Growth-projection props with current age 30, retirement and view
age 65, and no accounts. -/
def Gview : GrowthParams := ⟨0, 0, 0, 0, 65, 30, 5, 2, 4, 0, 65⟩

/-! ### Helper lemmas about the two closed-form projectors -/

/-- For a strictly positive year count the two variants compute the
same expression. -/
lemma calcFV_eq_of_pos (p m r : ℚ) (y : ℤ) (hy : 0 < y) :
    calculateFutureValueRC p m r y = calculateFutureValueGP p m r y := by
  rw [calculateFutureValueRC, calculateFutureValueGP,
    if_neg (by omega), if_neg (by omega)]

/-- The growth-projection variant is monotone in the year count. -/
lemma fvGP_mono (p m r : ℚ) (y1 y2 : ℤ) (hp : 0 ≤ p) (hm : 0 ≤ m) (hr : 0 ≤ r)
    (h : y1 ≤ y2) :
    calculateFutureValueGP p m r y1 ≤ calculateFutureValueGP p m r y2 := by
  have h1r : (1 : ℚ) ≤ 1 + r := by linarith
  rcases le_or_lt y2 0 with h2 | h2
  · rw [calculateFutureValueGP, calculateFutureValueGP,
      if_pos (le_trans h h2), if_pos h2]
  · rcases le_or_lt y1 0 with h1 | h1
    · rw [calculateFutureValueGP, calculateFutureValueGP,
        if_pos h1, if_neg (not_le.mpr h2)]
      dsimp only
      have hP : p ≤ p * (1 + r) ^ y2.toNat :=
        le_mul_of_one_le_right hp (one_le_pow₀ h1r)
      split_ifs with hmr
      · have hA : 0 ≤ m * ((1 + r / 12) ^ (y2 * 12).toNat - 1) / (r / 12) := by
          have hpow : (1 : ℚ) ≤ (1 + r / 12) ^ (y2 * 12).toNat :=
            one_le_pow₀ (by linarith)
          exact div_nonneg (mul_nonneg hm (by linarith)) (le_of_lt hmr)
        linarith
      · have hA : (0 : ℚ) ≤ m * ((y2 * 12 : ℤ) : ℚ) := by
          have : (0 : ℚ) ≤ ((y2 * 12 : ℤ) : ℚ) := by
            exact_mod_cast Int.mul_nonneg h2.le (by norm_num)
          exact mul_nonneg hm this
        linarith
    · rw [calculateFutureValueGP, calculateFutureValueGP,
        if_neg (not_le.mpr h1), if_neg (not_le.mpr h2)]
      dsimp only
      have hyt : y1.toNat ≤ y2.toNat := Int.toNat_le_toNat h
      have hmt : (y1 * 12).toNat ≤ (y2 * 12).toNat :=
        Int.toNat_le_toNat (by omega)
      have hPP : p * (1 + r) ^ y1.toNat ≤ p * (1 + r) ^ y2.toNat :=
        mul_le_mul_of_nonneg_left (pow_le_pow_right₀ h1r hyt) hp
      split_ifs with hmr
      · have hnum : m * ((1 + r / 12) ^ (y1 * 12).toNat - 1) ≤
            m * ((1 + r / 12) ^ (y2 * 12).toNat - 1) :=
          mul_le_mul_of_nonneg_left
            (sub_le_sub_right (pow_le_pow_right₀ (by linarith) hmt) 1) hm
        exact add_le_add hPP ((div_le_div_iff_of_pos_right hmr).mpr hnum)
      · have : ((y1 * 12 : ℤ) : ℚ) ≤ ((y2 * 12 : ℤ) : ℚ) := by
          exact_mod_cast (by omega : y1 * 12 ≤ y2 * 12)
        have := mul_le_mul_of_nonneg_left this hm
        linarith

/-- The main-calculator variant is also monotone in the year count:
crossing the zero-year boundary, the twelve up-front contributions it
returns at `years ≤ 0` are dominated by the annuity term of any
positive year count. -/
lemma fvRC_mono (p m r : ℚ) (y1 y2 : ℤ) (hp : 0 ≤ p) (hm : 0 ≤ m) (hr : 0 ≤ r)
    (h : y1 ≤ y2) :
    calculateFutureValueRC p m r y1 ≤ calculateFutureValueRC p m r y2 := by
  have h1r : (1 : ℚ) ≤ 1 + r := by linarith
  rcases le_or_lt y2 0 with h2 | h2
  · rw [calculateFutureValueRC, calculateFutureValueRC,
      if_pos (le_trans h h2), if_pos h2]
  · rcases le_or_lt y1 0 with h1 | h1
    · rw [calculateFutureValueRC, calculateFutureValueRC,
        if_pos h1, if_neg (not_le.mpr h2)]
      dsimp only
      have hP : p ≤ p * (1 + r) ^ y2.toNat :=
        le_mul_of_one_le_right hp (one_le_pow₀ h1r)
      have h12 : (12 : ℤ) ≤ y2 * 12 := by omega
      split_ifs with hmr
      · -- the annuity term dominates twelve monthly contributions,
        -- by the Bernoulli inequality
        have hn : 12 ≤ (y2 * 12).toNat := by omega
        have hbern := one_add_mul_le_pow
          (by linarith : (-2 : ℚ) ≤ r / 12) (y2 * 12).toNat
        have hge : 12 * (r / 12) ≤ (1 + r / 12) ^ (y2 * 12).toNat - 1 := by
          have hcast : (12 : ℚ) ≤ ((y2 * 12).toNat : ℚ) := by exact_mod_cast hn
          nlinarith [mul_le_mul_of_nonneg_right hcast (le_of_lt hmr)]
        have hA : m * 12 ≤ m * ((1 + r / 12) ^ (y2 * 12).toNat - 1) / (r / 12) := by
          rw [le_div_iff₀ hmr]
          calc m * 12 * (r / 12) = m * (12 * (r / 12)) := by ring
            _ ≤ m * ((1 + r / 12) ^ (y2 * 12).toNat - 1) :=
              mul_le_mul_of_nonneg_left hge hm
        linarith
      · have hA : m * 12 ≤ m * ((y2 * 12 : ℤ) : ℚ) := by
          have : (12 : ℚ) ≤ ((y2 * 12 : ℤ) : ℚ) := by exact_mod_cast h12
          exact mul_le_mul_of_nonneg_left this hm
        linarith
    · rw [calcFV_eq_of_pos p m r y1 h1, calcFV_eq_of_pos p m r y2 h2]
      exact fvGP_mono p m r y1 y2 hp hm hr h

/-! ### Claim theorems about the closed-form projector -/

/-- Claim C1: for every principal, monthly contribution, annual rate
(a decimal fraction) and integer year count `years > 0`, both
implementations of `future_value` return
`principal * (1 + annual_rate) ^ years` plus the future value of a
monthly ordinary annuity: for `annual_rate > 0` the annuity term is
`monthly * ((1 + annual_rate / 12) ^ (years * 12) - 1) / (annual_rate / 12)`,
and for `annual_rate = 0` it is `monthly * years * 12`. -/
theorem futureValue_closed_form (p m r : ℚ) (y : ℤ) (hy : 0 < y) :
    (0 < r →
      calculateFutureValueRC p m r y =
        p * (1 + r) ^ y.toNat +
          m * ((1 + r / 12) ^ (y * 12).toNat - 1) / (r / 12) ∧
      calculateFutureValueGP p m r y =
        p * (1 + r) ^ y.toNat +
          m * ((1 + r / 12) ^ (y * 12).toNat - 1) / (r / 12)) ∧
    (r = 0 →
      calculateFutureValueRC p m r y = p * (1 + r) ^ y.toNat + m * (y : ℚ) * 12 ∧
      calculateFutureValueGP p m r y = p * (1 + r) ^ y.toNat + m * (y : ℚ) * 12) := by
  have hne : ¬ y ≤ 0 := not_le.mpr hy
  constructor
  · intro hrpos
    have hmr : 0 < r / 12 := by positivity
    rw [calculateFutureValueRC, calculateFutureValueGP, if_neg hne, if_neg hne]
    dsimp only
    rw [if_pos hmr]
    exact ⟨rfl, rfl⟩
  · rintro rfl
    have hmr : ¬ (0 : ℚ) < 0 / 12 := by norm_num
    rw [calculateFutureValueRC, calculateFutureValueGP, if_neg hne, if_neg hne]
    dsimp only
    rw [if_neg hmr]
    constructor <;> · push_cast; ring

/-- Witness for C1 at principal 100, monthly 7, rate 1/10 (positive
branch) and rate 0 (zero branch), years 2. -/
theorem futureValue_closed_form_witness :
    calculateFutureValueRC 100 7 (1/10) 2 =
      100 * (1 + (1/10 : ℚ)) ^ (2 : ℤ).toNat +
        7 * ((1 + (1/10 : ℚ) / 12) ^ ((2 * 12 : ℤ)).toNat - 1) / ((1/10 : ℚ) / 12) ∧
    calculateFutureValueRC 100 7 0 2 =
      100 * (1 + (0 : ℚ)) ^ (2 : ℤ).toNat + 7 * ((2 : ℤ) : ℚ) * 12 :=
  ⟨((futureValue_closed_form 100 7 (1/10) 2 (by norm_num)).1 (by norm_num)).1,
   ((futureValue_closed_form 100 7 0 2 (by norm_num)).2 rfl).1⟩

/-- Claim C4: for non-negative principal, monthly contribution and
rate, both implementations of `future_value` are monotonically
non-decreasing in the year count, including across the zero-year
boundary. -/
theorem futureValue_mono_in_years (p m r : ℚ) (y1 y2 : ℤ)
    (hp : 0 ≤ p) (hm : 0 ≤ m) (hr : 0 ≤ r) (h : y1 ≤ y2) :
    calculateFutureValueRC p m r y1 ≤ calculateFutureValueRC p m r y2 ∧
    calculateFutureValueGP p m r y1 ≤ calculateFutureValueGP p m r y2 :=
  ⟨fvRC_mono p m r y1 y2 hp hm hr h, fvGP_mono p m r y1 y2 hp hm hr h⟩

/-- Witness for C4 at principal 1, monthly 1, rate 1/10, crossing the
boundary from 0 years to 1 year. -/
theorem futureValue_mono_in_years_witness :
    calculateFutureValueRC 1 1 (1/10) 0 ≤ calculateFutureValueRC 1 1 (1/10) 1 ∧
    calculateFutureValueGP 1 1 (1/10) 0 ≤ calculateFutureValueGP 1 1 (1/10) 1 :=
  futureValue_mono_in_years 1 1 (1/10) 0 1 (by norm_num) (by norm_num)
    (by norm_num) (by norm_num)

/-- Counterexample to claim C5 as stated: the main-calculator variant
of `future_value`, at principal 0, monthly contribution 100, rate 0
and zero years (all satisfying the claim's non-negativity
hypotheses), returns 1200, not the principal 0. -/
theorem futureValue_zero_years_cex :
    calculateFutureValueRC 0 100 0 0 = 1200 ∧
    calculateFutureValueRC 0 100 0 0 ≠ 0 := by
  constructor <;> norm_num [calculateFutureValueRC]

/-- Claim C5 amended: with zero years, the growth-projection variant
of `future_value` returns exactly the principal, while the
main-calculator variant returns the principal plus twelve monthly
contributions. -/
theorem futureValue_zero_years_amended (p m r : ℚ)
    (hp : 0 ≤ p) (hm : 0 ≤ m) (hr : 0 ≤ r) :
    calculateFutureValueGP p m r 0 = p ∧
    calculateFutureValueRC p m r 0 = p + m * 12 := by
  rw [calculateFutureValueGP, calculateFutureValueRC, if_pos le_rfl, if_pos le_rfl]
  exact ⟨rfl, rfl⟩

/-- Witness for the amended C5 at principal 5, monthly 3, rate 1. -/
theorem futureValue_zero_years_amended_witness :
    calculateFutureValueGP 5 3 1 0 = 5 ∧
    calculateFutureValueRC 5 3 1 0 = 5 + 3 * 12 :=
  futureValue_zero_years_amended 5 3 1 (by norm_num) (by norm_num) (by norm_num)

/-- Claim C6: the two duplicated closed-form implementations agree for
every input with a positive year count, and diverge only at
`years ≤ 0`, where the growth-projection variant returns the principal
and the main-calculator variant returns the principal plus twelve
monthly contributions. -/
theorem futureValue_variants_agree (p m r : ℚ) (y : ℤ) :
    (0 < y → calculateFutureValueRC p m r y = calculateFutureValueGP p m r y) ∧
    (y ≤ 0 → calculateFutureValueRC p m r y = p + m * 12 ∧
      calculateFutureValueGP p m r y = p) := by
  refine ⟨fun hy => calcFV_eq_of_pos p m r y hy, fun hy => ?_⟩
  rw [calculateFutureValueRC, calculateFutureValueGP, if_pos hy, if_pos hy]
  exact ⟨rfl, rfl⟩

/-- Witness for C6 at principal 100, monthly 7, rate 1/10, with year
counts 3 (agreement) and 0 (divergence). -/
theorem futureValue_variants_agree_witness :
    calculateFutureValueRC 100 7 (1/10) 3 = calculateFutureValueGP 100 7 (1/10) 3 ∧
    calculateFutureValueRC 100 7 (1/10) 0 = 100 + 7 * 12 ∧
    calculateFutureValueGP 100 7 (1/10) 0 = 100 :=
  ⟨(futureValue_variants_agree 100 7 (1/10) 3).1 (by norm_num),
   ((futureValue_variants_agree 100 7 (1/10) 0).2 le_rfl).1,
   ((futureValue_variants_agree 100 7 (1/10) 0).2 le_rfl).2⟩

/-! ### Helper lemmas about the yearly simulation -/

lemma simulateYearly_length (P : SimParams) :
    (simulateYearly P).length = (100 - P.currentAge + 1).toNat := by
  simp [simulateYearly]

lemma simulateYearly_getD (P : SimParams) (y : ℕ)
    (h : y < (100 - P.currentAge + 1).toNat) :
    (simulateYearly P).getD y dRow = simRow P y := by
  simp [simulateYearly, List.getD_eq_getElem?_getD, List.getElem?_map,
    List.getElem?_range h]

lemma simRow_year (P : SimParams) (y : ℕ) : (simRow P y).year = y := by
  simp only [simRow, simYear]
  split_ifs <;> rfl

lemma simRow_balance (P : SimParams) (y : ℕ) :
    (simRow P y).balance = (simBal P (y + 1)).1 + (simBal P (y + 1)).2 := by
  simp only [simRow, simBal, simYear]
  split_ifs <;> rfl

/-- The fields of a decumulation row (`y > yearsToRetirement`), read
off from the loop body. -/
lemma simRow_decum_fields (P : SimParams) (y : ℕ)
    (hy : yearsToRetirement P < (y : ℤ)) :
    (simRow P y).retirementIncome = annualWithdrawal P ∧
    (simRow P y).payout = min ((simBal P y).1 + (simBal P y).2) (annualWithdrawal P) ∧
    (simRow P y).salaryBasis = (simBal P y).1 + (simBal P y).2 ∧
    (simRow P y).annualContribution = 0 := by
  simp only [simRow, simYear]
  rw [if_neg (not_le.mpr hy)]
  exact ⟨rfl, rfl, rfl, rfl⟩

/-- The fields of an accumulation row (`y ≤ yearsToRetirement`), read
off from the loop body. -/
lemma simRow_accum_fields (P : SimParams) (y : ℕ)
    (hy : (y : ℤ) ≤ yearsToRetirement P) :
    (simRow P y).payout = 0 ∧
    (simRow P y).retirementIncome = 0 ∧
    (simRow P y).annualContribution =
      annualContribSavings P + annualContribInvestment P ∧
    (simRow P y).balance =
      ((simBal P y).1 + annualContribSavings P) * (1 + P.savingsGrowthRate) +
      ((simBal P y).2 + annualContribInvestment P) * (1 + P.investmentGrowthRate) := by
  simp only [simRow, simYear]
  rw [if_pos hy]
  exact ⟨rfl, rfl, rfl, rfl⟩

/-- The shape of one state transition of the simulation, with the
display-only blended rate eliminated. -/
lemma simBal_succ (P : SimParams) (y : ℕ) :
    simBal P (y + 1) =
      if (y : ℤ) ≤ yearsToRetirement P then
        (((simBal P y).1 + annualContribSavings P) * (1 + P.savingsGrowthRate),
         ((simBal P y).2 + annualContribInvestment P) * (1 + P.investmentGrowthRate))
      else
        (max 0 ((simBal P y).1 + (simBal P y).2 -
            min ((simBal P y).1 + (simBal P y).2) (annualWithdrawal P)) *
            (if 0 < (simBal P y).1 + (simBal P y).2 then
              (simBal P y).1 / ((simBal P y).1 + (simBal P y).2) else 1 / 2) *
          (1 + P.savingsGrowthRate),
         max 0 ((simBal P y).1 + (simBal P y).2 -
            min ((simBal P y).1 + (simBal P y).2) (annualWithdrawal P)) *
            (1 - (if 0 < (simBal P y).1 + (simBal P y).2 then
              (simBal P y).1 / ((simBal P y).1 + (simBal P y).2) else 1 / 2)) *
          (1 + P.investmentGrowthRate)) := by
  simp only [simBal, simYear]
  split_ifs <;> rfl

/-- Both running balances stay non-negative when the starting
principals, the monthly contributions and the growth rates are all
non-negative (the withdrawal clamp and the `max 0` floor take care of
the decumulation step regardless of the withdrawal's sign). -/
lemma simBal_nonneg (P : SimParams)
    (hts : 0 ≤ P.totalSavings) (hti : 0 ≤ P.totalInvestments)
    (hms : 0 ≤ P.monthlySavings) (hmi : 0 ≤ P.monthlyInvestments)
    (hsr : 0 ≤ P.savingsGrowthRate) (hir : 0 ≤ P.investmentGrowthRate) :
    ∀ y : ℕ, 0 ≤ (simBal P y).1 ∧ 0 ≤ (simBal P y).2 := by
  intro y
  induction y with
  | zero => exact ⟨hts, hti⟩
  | succ y ih =>
    obtain ⟨h1, h2⟩ := ih
    have hacs : 0 ≤ annualContribSavings P := by
      rw [annualContribSavings]; positivity
    have haci : 0 ≤ annualContribInvestment P := by
      rw [annualContribInvestment]; positivity
    have htot : 0 ≤ (simBal P y).1 + (simBal P y).2 := by linarith
    rw [simBal_succ]
    split_ifs with hphase hstb
    · exact ⟨mul_nonneg (by linarith) (by linarith),
        mul_nonneg (by linarith) (by linarith)⟩
    · have hratio0 : 0 ≤ (simBal P y).1 / ((simBal P y).1 + (simBal P y).2) :=
        div_nonneg h1 htot
      have hratio1 : (simBal P y).1 / ((simBal P y).1 + (simBal P y).2) ≤ 1 :=
        (div_le_one hstb).mpr (by linarith)
      have hmax : (0 : ℚ) ≤ max 0 ((simBal P y).1 + (simBal P y).2 -
          min ((simBal P y).1 + (simBal P y).2) (annualWithdrawal P)) :=
        le_max_left 0 _
      exact ⟨mul_nonneg (mul_nonneg hmax hratio0) (by linarith),
        mul_nonneg (mul_nonneg hmax (by linarith)) (by linarith)⟩
    · have hmax : (0 : ℚ) ≤ max 0 ((simBal P y).1 + (simBal P y).2 -
          min ((simBal P y).1 + (simBal P y).2) (annualWithdrawal P)) :=
        le_max_left 0 _
      exact ⟨mul_nonneg (mul_nonneg hmax (by norm_num)) (by linarith),
        mul_nonneg (mul_nonneg hmax (by norm_num)) (by linarith)⟩

/-! ### Claim theorems about the yearly simulation -/

/-- Claim C3: for non-negative principals, monthly contributions and
growth rates, every row produced by the Yearly Simulator has a
non-negative balance: the decumulation step withdraws at most the
pre-withdrawal combined balance and floors the remainder at zero, and
the accumulation step cannot make a non-negative balance negative.
The second conjunct states the same fact through total indexing. -/
theorem simulateYearly_balance_nonneg (P : SimParams)
    (hts : 0 ≤ P.totalSavings) (hti : 0 ≤ P.totalInvestments)
    (hms : 0 ≤ P.monthlySavings) (hmi : 0 ≤ P.monthlyInvestments)
    (hsr : 0 ≤ P.savingsGrowthRate) (hir : 0 ≤ P.investmentGrowthRate) :
    (∀ row ∈ simulateYearly P, 0 ≤ row.balance) ∧
    (∀ y : ℕ, 0 ≤ ((simulateYearly P).getD y dRow).balance) := by
  have key : ∀ y : ℕ, 0 ≤ (simRow P y).balance := by
    intro y
    rw [simRow_balance]
    obtain ⟨a, b⟩ := simBal_nonneg P hts hti hms hmi hsr hir (y + 1)
    linarith
  constructor
  · intro row hrow
    rw [simulateYearly] at hrow
    obtain ⟨a, _, rfl⟩ := List.mem_map.mp hrow
    exact key a
  · intro y
    by_cases hy : y < (100 - P.currentAge + 1).toNat
    · rw [simulateYearly_getD P y hy]
      exact key y
    · rw [List.getD_eq_default]
      · norm_num [dRow]
      · rw [simulateYearly_length]
        omega

/-- Witness for C3 with all-zero inputs at current age 100: the single
produced row has a non-negative balance. -/
theorem simulateYearly_balance_nonneg_witness :
    0 ≤ ((simulateYearly Pzero).getD 0 dRow).balance :=
  (simulateYearly_balance_nonneg Pzero (by norm_num [Pzero]) (by norm_num [Pzero])
    (by norm_num [Pzero]) (by norm_num [Pzero]) (by norm_num [Pzero])
    (by norm_num [Pzero])).2 0

/-- Claim C2: in every post-horizon row of the Yearly Simulator, the
reported retirement income is the one fixed amount
`projectedTotal * withdrawalRate / 100` derived from the closed-form
projected total at the horizon — the same constant dollar amount for
every such row, independent of the declining balance — and the applied
withdrawal is that constant clamped by the row's pre-withdrawal
combined balance. -/
theorem annualWithdrawal_fixed (P : SimParams) (y : ℕ)
    (hy : yearsToRetirement P < (y : ℤ))
    (hlen : y < (simulateYearly P).length) :
    ((simulateYearly P).getD y dRow).retirementIncome =
      projectedTotal P * (P.withdrawalRate / 100) ∧
    ((simulateYearly P).getD y dRow).payout =
      min (((simulateYearly P).getD y dRow).salaryBasis)
        (projectedTotal P * (P.withdrawalRate / 100)) := by
  rw [simulateYearly_length] at hlen
  rw [simulateYearly_getD P y hlen]
  obtain ⟨hri, hpay, hsb, _⟩ := simRow_decum_fields P y hy
  rw [hri, hpay, hsb]
  exact ⟨rfl, rfl⟩

/-- Witness for C2: a simulation whose year-1 row is post-horizon. -/
theorem annualWithdrawal_fixed_witness :
    ((simulateYearly Pdecum).getD 1 dRow).retirementIncome =
      projectedTotal Pdecum * (Pdecum.withdrawalRate / 100) ∧
    ((simulateYearly Pdecum).getD 1 dRow).payout =
      min (((simulateYearly Pdecum).getD 1 dRow).salaryBasis)
        (projectedTotal Pdecum * (Pdecum.withdrawalRate / 100)) :=
  annualWithdrawal_fixed Pdecum 1
    (by norm_num [yearsToRetirement, Pdecum])
    (by rw [simulateYearly_length]; norm_num [Pdecum])

/-- Claim C10: every decumulation row reports as retirement income the
fixed unclamped annual withdrawal while its payout is the clamped
withdrawal, so the payout never exceeds the reported income, strictly
so whenever the pre-withdrawal combined balance falls below the annual
withdrawal. -/
theorem retirementIncome_ge_payout (P : SimParams) (y : ℕ)
    (hy : yearsToRetirement P < (y : ℤ))
    (hlen : y < (simulateYearly P).length) :
    ((simulateYearly P).getD y dRow).retirementIncome = annualWithdrawal P ∧
    ((simulateYearly P).getD y dRow).payout =
      min (((simulateYearly P).getD y dRow).salaryBasis) (annualWithdrawal P) ∧
    ((simulateYearly P).getD y dRow).payout ≤
      ((simulateYearly P).getD y dRow).retirementIncome ∧
    (((simulateYearly P).getD y dRow).salaryBasis < annualWithdrawal P →
      ((simulateYearly P).getD y dRow).payout <
        ((simulateYearly P).getD y dRow).retirementIncome) := by
  rw [simulateYearly_length] at hlen
  rw [simulateYearly_getD P y hlen]
  obtain ⟨hri, hpay, hsb, _⟩ := simRow_decum_fields P y hy
  rw [hri, hpay, hsb]
  refine ⟨rfl, rfl, min_le_right _ _, fun hlow => ?_⟩
  rw [min_eq_left (le_of_lt hlow)]
  exact hlow

/-- Witness for C10: in the clamped scenario the year-1 row has
pre-withdrawal balance 1, annual withdrawal 4, payout 1 and reported
retirement income 4, so the strict inequality is realised. -/
theorem retirementIncome_ge_payout_witness :
    ((simulateYearly Pclamp).getD 1 dRow).retirementIncome = annualWithdrawal Pclamp ∧
    ((simulateYearly Pclamp).getD 1 dRow).payout =
      min (((simulateYearly Pclamp).getD 1 dRow).salaryBasis) (annualWithdrawal Pclamp) ∧
    ((simulateYearly Pclamp).getD 1 dRow).payout <
      ((simulateYearly Pclamp).getD 1 dRow).retirementIncome := by
  have h := retirementIncome_ge_payout Pclamp 1
    (by norm_num [yearsToRetirement, Pclamp])
    (by rw [simulateYearly_length]; norm_num [Pclamp])
  refine ⟨h.1, h.2.1, h.2.2.2 ?_⟩
  rw [simulateYearly_getD Pclamp 1 (by norm_num [Pclamp])]
  have hsb := (simRow_decum_fields Pclamp 1
    (by norm_num [yearsToRetirement, Pclamp])).2.2.1
  rw [hsb]
  norm_num [simBal, simYear, Pclamp, yearsToRetirement, annualContribSavings,
    annualContribInvestment, annualWithdrawal, projectedTotal,
    projectedInvestmentValue, projectedSavingsValue, calculateFutureValueRC]

/-- Counterexample to claim C7 as stated: with retirement age equal to
current age 65, principal 10000, monthly contribution 100 and a
positive annual withdrawal of 448, row 0 of the Yearly Simulator is an
accumulation row — its payout is 0 rather than
`min (combined principal) (annual withdrawal) = 448`, its contribution
is 1200 rather than 0, and the contribution-then-growth transition is
applied. -/
theorem horizonEq_row0_cex :
    PhorizonEq.retirementAge = PhorizonEq.currentAge ∧
    0 < annualWithdrawal PhorizonEq ∧
    PhorizonEq.totalSavings + PhorizonEq.totalInvestments ≠ 0 ∧
    ((simulateYearly PhorizonEq).getD 0 dRow).payout = 0 ∧
    min (PhorizonEq.totalSavings + PhorizonEq.totalInvestments)
      (annualWithdrawal PhorizonEq) = 448 ∧
    ((simulateYearly PhorizonEq).getD 0 dRow).payout ≠
      min (PhorizonEq.totalSavings + PhorizonEq.totalInvestments)
        (annualWithdrawal PhorizonEq) ∧
    ((simulateYearly PhorizonEq).getD 0 dRow).annualContribution = 1200 := by
  rw [simulateYearly_getD PhorizonEq 0 (by norm_num [PhorizonEq])]
  norm_num [PhorizonEq, simRow, simYear, simBal, yearsToRetirement,
    annualContribSavings, annualContribInvestment, annualWithdrawal,
    projectedTotal, projectedInvestmentValue, projectedSavingsValue,
    calculateFutureValueRC]

/-- Claim C7 amended: when the horizon age equals the current age, row
0 of the Yearly Simulator is still an accumulation row (the loop
treats `y ≤ yearsToRetirement` as accumulation, and `0 ≤ 0`): its
payout is 0, its contribution is the full annual contribution, and the
contribution-then-growth transition is applied.  The first
decumulation row is row 1, whose payout is
`min (pre-withdrawal combined balance) (annual withdrawal)`. -/
theorem horizonEq_row0_amended (P : SimParams)
    (hEq : P.retirementAge = P.currentAge)
    (hage : P.currentAge ≤ 99)
    (hw : 0 < annualWithdrawal P)
    (hp : P.totalSavings + P.totalInvestments ≠ 0) :
    ((simulateYearly P).getD 0 dRow).payout = 0 ∧
    ((simulateYearly P).getD 0 dRow).annualContribution =
      annualContribSavings P + annualContribInvestment P ∧
    ((simulateYearly P).getD 0 dRow).balance =
      (P.totalSavings + annualContribSavings P) * (1 + P.savingsGrowthRate) +
      (P.totalInvestments + annualContribInvestment P) * (1 + P.investmentGrowthRate) ∧
    ((simulateYearly P).getD 1 dRow).payout =
      min ((simBal P 1).1 + (simBal P 1).2) (annualWithdrawal P) := by
  have hytr : yearsToRetirement P = 0 := by
    rw [yearsToRetirement, hEq]; ring
  have h0 : (0 : ℕ) < (100 - P.currentAge + 1).toNat := by omega
  have h1 : (1 : ℕ) < (100 - P.currentAge + 1).toNat := by omega
  rw [simulateYearly_getD P 0 h0, simulateYearly_getD P 1 h1]
  obtain ⟨hpay0, _, hcon0, hbal0⟩ := simRow_accum_fields P 0 (by rw [hytr]; norm_num)
  obtain ⟨_, hpay1, _, _⟩ := simRow_decum_fields P 1 (by rw [hytr]; norm_num)
  refine ⟨hpay0, hcon0, ?_, hpay1⟩
  rw [hbal0]
  rfl

/-- Witness for the amended C7 at the concrete horizon-equal input. -/
theorem horizonEq_row0_amended_witness :
    ((simulateYearly PhorizonEq).getD 0 dRow).payout = 0 ∧
    ((simulateYearly PhorizonEq).getD 0 dRow).annualContribution =
      annualContribSavings PhorizonEq + annualContribInvestment PhorizonEq ∧
    ((simulateYearly PhorizonEq).getD 0 dRow).balance =
      (PhorizonEq.totalSavings + annualContribSavings PhorizonEq) *
        (1 + PhorizonEq.savingsGrowthRate) +
      (PhorizonEq.totalInvestments + annualContribInvestment PhorizonEq) *
        (1 + PhorizonEq.investmentGrowthRate) ∧
    ((simulateYearly PhorizonEq).getD 1 dRow).payout =
      min ((simBal PhorizonEq 1).1 + (simBal PhorizonEq 1).2)
        (annualWithdrawal PhorizonEq) :=
  horizonEq_row0_amended PhorizonEq rfl (by norm_num [PhorizonEq])
    (by norm_num [PhorizonEq, annualWithdrawal, projectedTotal,
      projectedInvestmentValue, projectedSavingsValue, yearsToRetirement,
      calculateFutureValueRC])
    (by norm_num [PhorizonEq])

/-- Counterexample to claim C8 as stated: in concrete scenario A the
Yearly Simulator's row 1 has balance 12876.48, not
`(10000 + 1200) * 1.02 = 11424`. -/
theorem scenarioA_row1_cex :
    ((simulateYearly PscenarioA).getD 1 dRow).balance = 1287648 / 100 ∧
    ((simulateYearly PscenarioA).getD 1 dRow).balance ≠ 11424 := by
  rw [simulateYearly_getD PscenarioA 1 (by norm_num [PscenarioA])]
  norm_num [PscenarioA, simRow, simYear, simBal, yearsToRetirement,
    annualContribSavings, annualContribInvestment, annualWithdrawal,
    projectedTotal, projectedInvestmentValue, projectedSavingsValue,
    calculateFutureValueRC]

/-- Claim C8 amended: in concrete scenario A, row 0 already carries the
first year's contribution-then-growth transition, so row 0 has balance
`(10000 + 1200) * 1.02 = 11424.00` and row 1 has balance
`(11424 + 1200) * 1.02 = 12876.48`. -/
theorem scenarioA_rows_amended :
    ((simulateYearly PscenarioA).getD 0 dRow).balance = (10000 + 1200) * (102 / 100) ∧
    ((simulateYearly PscenarioA).getD 1 dRow).balance = (11424 + 1200) * (102 / 100) := by
  rw [simulateYearly_getD PscenarioA 0 (by norm_num [PscenarioA]),
    simulateYearly_getD PscenarioA 1 (by norm_num [PscenarioA])]
  norm_num [PscenarioA, simRow, simYear, simBal, yearsToRetirement,
    annualContribSavings, annualContribInvestment, annualWithdrawal,
    projectedTotal, projectedInvestmentValue, projectedSavingsValue,
    calculateFutureValueRC]

/-! ### Helper lemmas about the growth-projection series -/

lemma genRow_year (G : GrowthParams) (y : ℕ) (prev : GrowthRow) :
    (genRow G y prev).year = y := by
  simp only [genRow]
  split_ifs <;> rfl

lemma genRows_length (G : GrowthParams) (n : ℕ) :
    (genRows G n).length = n + 1 := by
  induction n with
  | zero => rfl
  | succ n ih =>
    rw [genRows, List.length_append, ih]
    rfl

lemma genRows_getD_year (G : GrowthParams) (n i : ℕ) (h : i ≤ n) :
    ((genRows G n).getD i dGrowthRow).year = i := by
  induction n with
  | zero =>
    obtain rfl := Nat.le_zero.mp h
    simp [genRows, genRow_year]
  | succ n ih =>
    by_cases hi : i ≤ n
    · rw [genRows, List.getD_append _ _ _ _ (by rw [genRows_length]; omega)]
      exact ih hi
    · have hieq : i = n + 1 := by omega
      subst hieq
      rw [genRows, List.getD_append_right _ _ _ _ (by rw [genRows_length])]
      rw [genRows_length]
      simp [genRow_year]

lemma generateProjections_eq (G : GrowthParams)
    (h : 0 ≤ max G.viewAge G.retirementAge) :
    generateProjections G = genRows G (max G.viewAge G.retirementAge + 1).toNat := by
  simp only [generateProjections]
  rw [if_neg (by omega)]

/-! ### Claim theorems about the shapes of the two series -/

/-- Claim C9 amended: the detailed Yearly Simulator series has exactly
one row per integer year offset from 0 to `end_age - current_age`
inclusive with its hard-coded end age 100, ordered by increasing year
offset with `row[n].year = n`.  The growth-projection series also
satisfies `row[n].year = n` in increasing order, but its loop bound is
an age rather than an age difference: it produces
`max viewAge retirementAge + 2` rows, not
`view_age - current_age + 1`. -/
theorem projection_series_shape (P : SimParams) (G : GrowthParams)
    (hG : 0 ≤ max G.viewAge G.retirementAge) :
    (simulateYearly P).length = (100 - P.currentAge + 1).toNat ∧
    (∀ n : ℕ, n < (simulateYearly P).length →
      ((simulateYearly P).getD n dRow).year = n) ∧
    (generateProjections G).length = (max G.viewAge G.retirementAge + 1).toNat + 1 ∧
    (∀ n : ℕ, n < (generateProjections G).length →
      ((generateProjections G).getD n dGrowthRow).year = n) := by
  refine ⟨simulateYearly_length P, fun n hn => ?_, ?_, fun n hn => ?_⟩
  · rw [simulateYearly_length] at hn
    rw [simulateYearly_getD P n hn, simRow_year]
  · rw [generateProjections_eq G hG, genRows_length]
  · rw [generateProjections_eq G hG] at hn ⊢
    rw [genRows_length] at hn
    exact genRows_getD_year G _ n (by omega)

/-- Witness for the amended C9 at the concrete inputs. -/
theorem projection_series_shape_witness :
    (simulateYearly Pzero).length = (100 - Pzero.currentAge + 1).toNat ∧
    ((simulateYearly Pzero).getD 0 dRow).year = 0 ∧
    (generateProjections Gview).length =
      (max Gview.viewAge Gview.retirementAge + 1).toNat + 1 ∧
    ((generateProjections Gview).getD 0 dGrowthRow).year = 0 := by
  have h := projection_series_shape Pzero Gview (by decide)
  refine ⟨h.1, h.2.1 0 ?_, h.2.2.1, h.2.2.2 0 ?_⟩
  · rw [h.1]; decide
  · rw [h.2.2.1]; decide

/-- Counterexample to claim C9 as stated: with current age 30 and both
retirement and view age 65 the growth-projection series has 67 rows,
not `end_age - current_age + 1 = 36`. -/
theorem generateProjections_rowcount_cex :
    (generateProjections Gview).length = 67 ∧
    (Gview.viewAge - Gview.currentAge + 1 : ℤ) = 36 ∧
    (generateProjections Gview).length ≠ 36 := by
  have h : generateProjections Gview = genRows Gview 66 := by
    rw [generateProjections_eq Gview (by decide)]
    rfl
  rw [h, genRows_length]
  refine ⟨rfl, by decide, by decide⟩

end Retirement
